import Mathlib

/-!
Shallow embedding of `src/next/src/services/agent/autonomous-agent.ts`
(the `AutonomousAgent` class): lifecycle state machine, work log, retry
executor (`runWork` / `withRetries`), deferred conclusion, the main
`run` loop, `pauseAgent` / `stopAgent`, `chat`, and `createTaskMessages`.

The agent's mutable context (lifecycle held by the run-model, the
`isAgentThinking` flag of the agent store, the work log, the deferred
conclusion slot, the completed-task counter) is collected in one record
`AgentState`; every method of the class becomes a function
`... → AgentState → AgentState`.  Calls to external collaborators
(message service, run-model task creation, `setTimeout` waits) are
recorded in an event list so that ordering claims about them can be
stated.  Work items are values of `AgentWork`: their concrete classes
(`StartGoalWork`, `AnalyzeTaskWork`, `ChatWork`) live outside this file
in the repository, so a work item is modelled by its observable contract:
an identifier (used to record `conclude()` calls), the optional associated
task, the sequence of errors its `run()` raises before it first succeeds,
the optional `onError` hook, an optional external lifecycle write landing
while its `run()` is awaited, and the optional `next()` follow-up item.
-/

/-- Lifecycle states of the run-model (`getLifecycle` / `setLifecycle`). -/
inductive Lifecycle : Type where
  | idle
  | running
  | pausing
  | paused
  | stopped
deriving DecidableEq, Repr

/-- A task as far as the controller reads it: `work.task.status` and
`work.task.result` are the only fields consulted (the completed-task
counter check). -/
structure AgentTask where
  status : String
  result : String
deriving DecidableEq, Repr

/-- An error value raised by a work item's `run()`.  The external
classifier only consults its retryability, carried here as a field. -/
structure Err where
  tag : String
  retryable : Bool
deriving DecidableEq, Repr

/-- Modelled from the spec: the external predicate
`isRetryableError(e) -> bool` (from `src/types/errors`, not part of the
source under verification) "partitioning errors into retryable vs.
fatal"; the partition itself is carried on the error value. -/
def isRetryableError (e : Err) : Bool :=
  e.retryable

/-- A work item (`AgentWork` in the source): observable contract of
`run` / `conclude` / `next` / `onError` plus the associated task.
`script` is the list of errors successive `run()` attempts raise before
the first success; `signal` is an external `setLifecycle` write landing
while the successful `run()` is awaited (the spec: lifecycle "is not
safe to assume ... stable during an iteration"); `next` is the optional
follow-up item. -/
inductive AgentWork : Type where
  | mk : Nat → Option AgentTask → List Err → Option (Err → Bool) →
      Option Lifecycle → Option AgentWork → AgentWork

def AgentWork.id : AgentWork → Nat
  | .mk i _ _ _ _ _ => i

def AgentWork.task : AgentWork → Option AgentTask
  | .mk _ t _ _ _ _ => t

def AgentWork.script : AgentWork → List Err
  | .mk _ _ sc _ _ _ => sc

def AgentWork.onError : AgentWork → Option (Err → Bool)
  | .mk _ _ _ h _ _ => h

def AgentWork.signal : AgentWork → Option Lifecycle
  | .mk _ _ _ _ sg _ => sg

def AgentWork.next : AgentWork → Option AgentWork
  | .mk _ _ _ _ _ n => n

/-- Calls made to external collaborators, recorded in order:
`messageService.startTask`, `model.addTask`, an awaited
`setTimeout` delay in milliseconds, `messageService.sendCompletedMessage`. -/
inductive AgentEvent : Type where
  | startedTask (description : String)
  | addedTask (description : String)
  | delayed (ms : Nat)
  | sentCompleted
deriving DecidableEq, Repr

/-- The agent's mutable context: run-model lifecycle, agent-store
`isAgentThinking` flag, instrumentation counters (`attempts` counts
`work.run()` invocations, `concluded` the item ids whose `conclude()`
ran, in order), the work log, the deferred-conclusion slot
(`lastConclusion`, holding the id of the item whose `conclude` is
pending), the completed-task counter, the run-model's current task, the
recorded collaborator events, and the `customMaxLoops` setting read from
the agent store. -/
structure AgentState where
  lifecycle : Lifecycle
  isAgentThinking : Bool
  attempts : Nat
  concluded : List Nat
  workLog : List AgentWork
  lastConclusion : Option Nat
  completedTasks : Nat
  currentTask : Option AgentTask
  events : List AgentEvent
  customMaxLoops : Nat

/-- `stopAgent()`: `this.model.setLifecycle("stopped")`. -/
def stopAgent (s : AgentState) : AgentState :=
  { s with lifecycle := Lifecycle.stopped }

/-- `pauseAgent()`: `this.model.setLifecycle("pausing")`. -/
def pauseAgent (s : AgentState) : AgentState :=
  { s with lifecycle := Lifecycle.pausing }

/-- `const RETRY_TIMEOUT = 2000;` in `runWork`. -/
def RETRY_TIMEOUT : Nat := 2000

/-- `const TIMOUT_SHORT = 150;` in `createTaskMessages`. -/
def TIMOUT_SHORT : Nat := 150

/-- JavaScript `x || true` applied to the result of the optional call
`work.onError?.(e)`: `none` models the hook being absent (the call
evaluates to `undefined`, which is falsy). -/
def jsOrTrue : Option Bool → Bool
  | none => false || true
  | some b => b || true

/-- An external `setLifecycle` write landing while a work item's
`run()` is awaited (none: no interference). -/
def applySignal : Option Lifecycle → AgentState → AgentState
  | none, s => s
  | some l, s => { s with lifecycle := l }

/-- The error handler passed to `withRetries` by `runWork`: computes
`const shouldRetry = work.onError?.(e) || true;`; if
`!isRetryableError(e)` it calls `this.stopAgent()` and returns `false`;
otherwise, if `shouldRetry`, it sets the thinking indicator and awaits
the flat `RETRY_TIMEOUT` delay; it returns `shouldRetry`. -/
def handleError (w : AgentWork) (e : Err) (s : AgentState) :
    AgentState × Bool :=
  let retrySignal := jsOrTrue (w.onError.map (fun f => f e))
  if ! isRetryableError e then
    (stopAgent s, false)
  else if retrySignal then
    ({ s with
        isAgentThinking := true,
        events := s.events ++ [AgentEvent.delayed RETRY_TIMEOUT] },
      retrySignal)
  else
    (s, retrySignal)

/-- Modelled from the spec: the retry executor `withRetries` (from
`src/services/api-utils`, not part of the source under verification),
applied to `runWork`'s action and handler: "execute the action once; on
failure, invoke the error handler with the error"; the action is
`if (shouldStop()) return; await work.run();`; on a handler verdict of
`true` the same action is retried, on `false` the loop ends; retrying
"continues until a non-retryable error occurs or the action succeeds".
The list argument is the errors the remaining `run()` attempts raise
before the first success. -/
def runAttempts (w : AgentWork) (shouldStop : AgentState → Bool) :
    List Err → AgentState → AgentState
  | [], s =>
    if shouldStop s then s
    else applySignal w.signal { s with attempts := s.attempts + 1 }
  | e :: rest, s =>
    if shouldStop s then s
    else
      let s1 := { s with attempts := s.attempts + 1 }
      let pr := handleError w e s1
      if pr.2 then runAttempts w shouldStop rest pr.1 else pr.1

/-- `runWork(work, shouldStop)`: `withRetries` around the item, then
`useAgentStore.getState().setIsAgentThinking(false)`. -/
def runWork (w : AgentWork) (shouldStop : AgentState → Bool)
    (s : AgentState) : AgentState :=
  let s1 := runAttempts w shouldStop w.script s
  { s1 with isAgentThinking := false }

/-- The stop predicate the run loop passes to `runWork`:
`() => this.model.getLifecycle() === "stopped"`. -/
def shouldStopPred (s : AgentState) : Bool :=
  decide (s.lifecycle = Lifecycle.stopped)

/-- Modelled from the spec: the goal-start bootstrap item
(`new StartGoalWork(this)`; the class is external to the file under
verification).  Only its participation in the work log matters here. -/
def startGoalWork : AgentWork :=
  AgentWork.mk 0 none [] none none none

/-- Modelled from the spec: the bootstrap item analyzing the current
task (`new AnalyzeTaskWork(this, currentTask)`; the class is external
to the file under verification), carrying the task it was seeded from. -/
def analyzeTaskWork (t : AgentTask) : AgentWork :=
  AgentWork.mk 1 (some t) [] none none none

/-- Modelled from the spec: the one-shot chat item
(`new ChatWork(this, message)`; the class is external to the file under
verification), succeeding in one attempt. -/
def chatWork (_message : String) : AgentWork :=
  AgentWork.mk 3 none [] none none none

/-- `addTasksIfWorklogEmpty`: return if the log is non-empty, else push
an `AnalyzeTaskWork` for the current task when one exists. -/
def addTasksIfWorklogEmpty (s : AgentState) : AgentState :=
  if 0 < s.workLog.length then s
  else
    match s.currentTask with
    | some t => { s with workLog := s.workLog ++ [analyzeTaskWork t] }
    | none => s

/-- The constructor: the collaborators (run-model lifecycle, current
task, agent-store `customMaxLoops`) are supplied from outside;
`this.workLog = [new StartGoalWork(this)]; this.completedTasks = 0`. -/
def mkAgent (lf : Lifecycle) (task : Option AgentTask) (maxLoops : Nat) :
    AgentState :=
  { lifecycle := lf
    isAgentThinking := false
    attempts := 0
    concluded := []
    workLog := [startGoalWork]
    lastConclusion := none
    completedTasks := 0
    currentTask := task
    events := []
    customMaxLoops := maxLoops }

/-- `if (this.model.getLifecycle() === "pausing") this.model.setLifecycle("paused");` -/
def resolvePausing (s : AgentState) : AgentState :=
  if s.lifecycle = Lifecycle.pausing then
    { s with lifecycle := Lifecycle.paused }
  else s

/-- The conclude-or-defer step right after `this.workLog.shift()`:
on a non-running lifecycle store `() => work.conclude()` in
`this.lastConclusion`, otherwise `await work.conclude()`. -/
def concludeStep (w : AgentWork) (s : AgentState) : AgentState :=
  if s.lifecycle ≠ Lifecycle.running then
    { s with lastConclusion := some w.id }
  else
    { s with concluded := s.concluded ++ [w.id] }

/-- `work.task.status === "completed" && work.task.result !== ""`,
guarded by `work.task !== undefined`. -/
def taskCompleted : Option AgentTask → Bool
  | some t => t.status == "completed" && t.result != ""
  | none => false

/-- The completed-task counter update: `this.completedTasks++` exactly
when the popped item's task is completed with a non-empty result. -/
def counterStep (w : AgentWork) (s : AgentState) : AgentState :=
  if taskCompleted w.task then
    { s with completedTasks := s.completedTasks + 1 }
  else s

/-- `if (this.completedTasks >= agent.agent.modelSettings.customMaxLoops*2)
this.model.setLifecycle("stopped");` -/
def ceilingStep (s : AgentState) : AgentState :=
  if s.customMaxLoops * 2 ≤ s.completedTasks then
    { s with lifecycle := Lifecycle.stopped }
  else s

/-- `const next = work.next(); if (next) this.workLog.push(next);` -/
def nextStep (w : AgentWork) (s : AgentState) : AgentState :=
  match w.next with
  | some n => { s with workLog := s.workLog ++ [n] }
  | none => s

/-- One iteration of the `while (this.workLog[0])` body after the
lifecycle checks: `runWork` on the head, `shift()`, conclude or defer,
counter update, ceiling check, `next()` push, re-seed. -/
def loopIter (w : AgentWork) (s : AgentState) : AgentState :=
  let s1 := runWork w shouldStopPred s
  let s2 := { s1 with workLog := s1.workLog.tail }
  let s3 := concludeStep w s2
  let s4 := counterStep w s3
  let s5 := ceilingStep s4
  let s6 := nextStep w s5
  addTasksIfWorklogEmpty s6

/-- The code after the while loop: resolve `pausing → paused`, return
unless running, else `sendCompletedMessage()` and `stopAgent()`. -/
def endPhase (s : AgentState) : AgentState :=
  let s1 := resolvePausing s
  if s1.lifecycle ≠ Lifecycle.running then s1
  else stopAgent { s1 with events := s1.events ++ [AgentEvent.sentCompleted] }

/-- The `while (this.workLog[0])` loop, fuel-indexed (the source loop
has no intrinsic bound: work items chain via `next()` and the log is
re-seeded).  Each fuel step is one iteration; an exhausted log goes to
`endPhase` regardless of fuel. -/
def runLoop : Nat → AgentState → AgentState
  | 0, s =>
    match s.workLog with
    | [] => endPhase s
    | _ :: _ => s
  | f + 1, s =>
    match s.workLog with
    | [] => endPhase s
    | w :: _ =>
      let s1 := resolvePausing s
      if s1.lifecycle ≠ Lifecycle.running then s1
      else runLoop f (loopIter w s1)

/-- The entry bookkeeping of `run()` before the loop: force `running`,
replay and clear the deferred conclusion if pending, then
`addTasksIfWorklogEmpty()`. -/
def preLoop (s : AgentState) : AgentState :=
  let s1 := { s with lifecycle := Lifecycle.running }
  let s2 :=
    match s1.lastConclusion with
    | some i => { s1 with concluded := s1.concluded ++ [i], lastConclusion := none }
    | none => s1
  addTasksIfWorklogEmpty s2

/-- `run()`: entry bookkeeping followed by the loop. -/
def run (fuel : Nat) (s : AgentState) : AgentState :=
  runLoop fuel (preLoop s)

/-- `chat(message)`: pause a running agent; if the lifecycle is then
`stopped`, remember that and set `pausing`; execute the chat item
through `runWork` (with the default `() => false` stop predicate),
conclude it, and restore `stopped` when remembered. -/
def chat (message : String) (s0 : AgentState) : AgentState :=
  let s1 := if s0.lifecycle = Lifecycle.running then pauseAgent s0 else s0
  let paused := decide (s1.lifecycle = Lifecycle.stopped)
  let s2 := if paused then { s1 with lifecycle := Lifecycle.pausing } else s1
  let s3 := runWork (chatWork message) (fun _ => false) s2
  let s4 := { s3 with concluded := s3.concluded ++ [(chatWork message).id] }
  if paused then { s4 with lifecycle := Lifecycle.stopped } else s4

/-- `createTaskMessages(tasks)`: for each description, push
`messageService.startTask(value)` onto the messages, call
`model.addTask(value)`, then await the `TIMOUT_SHORT` delay; return the
messages.  The message returned for a description is modelled by the
description itself (the message service is external). -/
def createTaskMessages : List String → AgentState → AgentState × List String
  | [], s => (s, [])
  | v :: rest, s =>
    let s1 := { s with events := s.events ++ [AgentEvent.startedTask v] }
    let s2 := { s1 with events := s1.events ++ [AgentEvent.addedTask v] }
    let s3 := { s2 with events := s2.events ++ [AgentEvent.delayed TIMOUT_SHORT] }
    let pr := createTaskMessages rest s3
    (pr.1, v :: pr.2)

/-- The per-description collaborator-call trace `createTaskMessages`
is claimed to produce: `startTask`, then `addTask`, then the short
delay, before the next description is touched. -/
def taskCreationTrace : List String → List AgentEvent
  | [] => []
  | v :: rest =>
    AgentEvent.startedTask v :: AgentEvent.addedTask v ::
      AgentEvent.delayed TIMOUT_SHORT :: taskCreationTrace rest

/-! ### Concrete instances used to exercise the model -/

/-- A fresh agent context with empty instrumentation, no current task and
`customMaxLoops = 1`, in the given lifecycle state. -/
def baseState (lf : Lifecycle) : AgentState :=
  { lifecycle := lf
    isAgentThinking := false
    attempts := 0
    concluded := []
    workLog := []
    lastConclusion := none
    completedTasks := 0
    currentTask := none
    events := []
    customMaxLoops := 1 }

/-- A retryable (transient) error. -/
def c1Err : Err := ⟨"transient", true⟩

/-- A work item whose `onError` hook refuses the retry (`false`) and whose
`run()` raises the retryable `c1Err` once, then succeeds. -/
def c1Work : AgentWork :=
  AgentWork.mk 7 none [c1Err] (some (fun _ => false)) none none

/-- A work item that succeeds at once while an external pause lands during
its awaited `run()`. -/
def c2Work : AgentWork :=
  AgentWork.mk 2 none [] none (some Lifecycle.pausing) none

def c2State : AgentState :=
  { baseState Lifecycle.running with workLog := [c2Work] }

/-- An error classified non-retryable by the external predicate. -/
def c3Err : Err := ⟨"fatal", false⟩

/-- A work item whose `run()` raises the fatal `c3Err`. -/
def c3Work : AgentWork :=
  AgentWork.mk 5 none [c3Err] none none none

/-- A plain work item that succeeds at once. -/
def c4Work : AgentWork :=
  AgentWork.mk 4 none [] none none none

def c4State : AgentState :=
  { baseState Lifecycle.running with workLog := [c4Work] }

/-- A work item whose associated task is completed with a non-empty result. -/
def c5Work : AgentWork :=
  AgentWork.mk 9 (some ⟨"completed", "done"⟩) [] none none none

/-- One completed task already counted, `customMaxLoops = 1`: the next
completed item reaches the `2 * customMaxLoops` ceiling. -/
def c5State : AgentState :=
  { baseState Lifecycle.running with workLog := [c5Work], completedTasks := 1 }

def c6State : AgentState :=
  { baseState Lifecycle.stopped with workLog := [c4Work] }

/-! ### Step normal forms and frame lemmas -/

theorem resolvePausing_eq (s : AgentState) :
    resolvePausing s =
      { s with lifecycle :=
          if s.lifecycle = Lifecycle.pausing then Lifecycle.paused
          else s.lifecycle } := by
  unfold resolvePausing
  split <;> simp_all

theorem counterStep_eq (w : AgentWork) (s : AgentState) :
    counterStep w s =
      { s with completedTasks :=
          s.completedTasks + (if taskCompleted w.task then 1 else 0) } := by
  unfold counterStep
  split <;> simp_all

theorem ceilingStep_eq (s : AgentState) :
    ceilingStep s =
      { s with lifecycle :=
          if s.customMaxLoops * 2 ≤ s.completedTasks then Lifecycle.stopped
          else s.lifecycle } := by
  unfold ceilingStep
  split <;> simp_all

theorem nextStep_eq (w : AgentWork) (s : AgentState) :
    nextStep w s = { s with workLog := s.workLog ++ w.next.toList } := by
  unfold nextStep
  cases w.next <;> simp [Option.toList]

theorem concludeStep_of_not_running (w : AgentWork) (s : AgentState)
    (h : s.lifecycle ≠ Lifecycle.running) :
    concludeStep w s = { s with lastConclusion := some w.id } := by
  simp [concludeStep, h]

theorem concludeStep_of_running (w : AgentWork) (s : AgentState)
    (h : s.lifecycle = Lifecycle.running) :
    concludeStep w s = { s with concluded := s.concluded ++ [w.id] } := by
  simp [concludeStep, h]

theorem concludeStep_frame (w : AgentWork) (s : AgentState) :
    (concludeStep w s).lifecycle = s.lifecycle ∧
    (concludeStep w s).workLog = s.workLog ∧
    (concludeStep w s).completedTasks = s.completedTasks ∧
    (concludeStep w s).attempts = s.attempts ∧
    (concludeStep w s).events = s.events ∧
    (concludeStep w s).currentTask = s.currentTask ∧
    (concludeStep w s).customMaxLoops = s.customMaxLoops := by
  unfold concludeStep
  split <;> simp

theorem addTasks_frame (s : AgentState) :
    (addTasksIfWorklogEmpty s).lifecycle = s.lifecycle ∧
    (addTasksIfWorklogEmpty s).concluded = s.concluded ∧
    (addTasksIfWorklogEmpty s).lastConclusion = s.lastConclusion ∧
    (addTasksIfWorklogEmpty s).completedTasks = s.completedTasks ∧
    (addTasksIfWorklogEmpty s).attempts = s.attempts ∧
    (addTasksIfWorklogEmpty s).events = s.events ∧
    (addTasksIfWorklogEmpty s).customMaxLoops = s.customMaxLoops := by
  unfold addTasksIfWorklogEmpty
  split
  · simp
  · cases hct : s.currentTask <;> simp [hct]

theorem addTasks_of_nonempty (s : AgentState) (h : 0 < s.workLog.length) :
    addTasksIfWorklogEmpty s = s := by
  simp [addTasksIfWorklogEmpty, h]

theorem handleError_frame (w : AgentWork) (e : Err) (s : AgentState) :
    (handleError w e s).1.concluded = s.concluded ∧
    (handleError w e s).1.lastConclusion = s.lastConclusion ∧
    (handleError w e s).1.workLog = s.workLog ∧
    (handleError w e s).1.completedTasks = s.completedTasks ∧
    (handleError w e s).1.attempts = s.attempts ∧
    (handleError w e s).1.currentTask = s.currentTask ∧
    (handleError w e s).1.customMaxLoops = s.customMaxLoops := by
  simp only [handleError]
  split
  · simp [stopAgent]
  · split <;> simp

theorem applySignal_frame (o : Option Lifecycle) (s : AgentState) :
    (applySignal o s).concluded = s.concluded ∧
    (applySignal o s).lastConclusion = s.lastConclusion ∧
    (applySignal o s).workLog = s.workLog ∧
    (applySignal o s).completedTasks = s.completedTasks ∧
    (applySignal o s).attempts = s.attempts ∧
    (applySignal o s).events = s.events ∧
    (applySignal o s).currentTask = s.currentTask ∧
    (applySignal o s).customMaxLoops = s.customMaxLoops := by
  cases o <;> simp [applySignal]

theorem runAttempts_frame (w : AgentWork) (p : AgentState → Bool) :
    ∀ (scr : List Err) (s : AgentState),
      (runAttempts w p scr s).concluded = s.concluded ∧
      (runAttempts w p scr s).lastConclusion = s.lastConclusion ∧
      (runAttempts w p scr s).workLog = s.workLog ∧
      (runAttempts w p scr s).completedTasks = s.completedTasks ∧
      (runAttempts w p scr s).currentTask = s.currentTask ∧
      (runAttempts w p scr s).customMaxLoops = s.customMaxLoops
  | [], s => by
    simp only [runAttempts]
    split
    · simp
    · have h := applySignal_frame w.signal { s with attempts := s.attempts + 1 }
      simp_all
  | e :: rest, s => by
    have hh := handleError_frame w e { s with attempts := s.attempts + 1 }
    have ih := runAttempts_frame w p rest
      (handleError w e { s with attempts := s.attempts + 1 }).1
    simp only [runAttempts]
    split
    · simp
    · split
      · simp_all
      · simp_all

theorem runWork_frame (w : AgentWork) (p : AgentState → Bool) (s : AgentState) :
    (runWork w p s).concluded = s.concluded ∧
    (runWork w p s).lastConclusion = s.lastConclusion ∧
    (runWork w p s).workLog = s.workLog ∧
    (runWork w p s).completedTasks = s.completedTasks ∧
    (runWork w p s).currentTask = s.currentTask ∧
    (runWork w p s).customMaxLoops = s.customMaxLoops := by
  have h := runAttempts_frame w p w.script s
  unfold runWork
  simp_all

theorem runWork_success (w : AgentWork) (p : AgentState → Bool) (s : AgentState)
    (hscr : w.script = []) (hstop : p s = false) :
    runWork w p s =
      { applySignal w.signal { s with attempts := s.attempts + 1 } with
          isAgentThinking := false } := by
  unfold runWork runAttempts
  rw [hscr]
  simp [hstop]

theorem resolvePausing_not_running (s : AgentState)
    (h : s.lifecycle ≠ Lifecycle.running) :
    (resolvePausing s).lifecycle ≠ Lifecycle.running := by
  rw [resolvePausing_eq]
  split <;> simp_all

theorem endPhase_of_not_running (s : AgentState)
    (h : s.lifecycle ≠ Lifecycle.running) :
    endPhase s = resolvePausing s := by
  unfold endPhase
  simp [resolvePausing_not_running s h]

theorem runLoop_not_running (fuel : Nat) (s : AgentState)
    (h : s.lifecycle ≠ Lifecycle.running) :
    (runLoop fuel s).concluded = s.concluded ∧
    (runLoop fuel s).lastConclusion = s.lastConclusion ∧
    (runLoop fuel s).attempts = s.attempts ∧
    (runLoop fuel s).workLog = s.workLog ∧
    (runLoop fuel s).events = s.events ∧
    (runLoop fuel s).completedTasks = s.completedTasks := by
  have hresolve : ∀ t : AgentState, (resolvePausing t).concluded = t.concluded ∧
      (resolvePausing t).lastConclusion = t.lastConclusion ∧
      (resolvePausing t).attempts = t.attempts ∧
      (resolvePausing t).workLog = t.workLog ∧
      (resolvePausing t).events = t.events ∧
      (resolvePausing t).completedTasks = t.completedTasks := by
    intro t
    rw [resolvePausing_eq]
    simp
  cases fuel with
  | zero =>
    cases hlog : s.workLog with
    | nil =>
      simp only [runLoop, hlog]
      rw [endPhase_of_not_running s h, resolvePausing_eq]
      simp [hlog]
    | cons w rest =>
      simp only [runLoop, hlog]
      simp [hlog]
  | succ f =>
    cases hlog : s.workLog with
    | nil =>
      simp only [runLoop, hlog]
      rw [endPhase_of_not_running s h, resolvePausing_eq]
      simp [hlog]
    | cons w rest =>
      simp only [runLoop, hlog]
      rw [if_pos (resolvePausing_not_running s h), resolvePausing_eq]
      simp [hlog]

theorem runLoop_stopped (fuel : Nat) (s : AgentState)
    (h : s.lifecycle = Lifecycle.stopped) :
    runLoop fuel s = s := by
  have hres : resolvePausing s = s := by
    unfold resolvePausing
    rw [h]
    simp
  have hne : s.lifecycle ≠ Lifecycle.running := by
    rw [h]
    simp
  cases fuel with
  | zero =>
    cases hlog : s.workLog with
    | nil =>
      simp only [runLoop, hlog]
      rw [endPhase_of_not_running s hne, hres]
    | cons w rest => simp only [runLoop, hlog]
  | succ f =>
    cases hlog : s.workLog with
    | nil =>
      simp only [runLoop, hlog]
      rw [endPhase_of_not_running s hne, hres]
    | cons w rest =>
      simp only [runLoop, hlog]
      rw [hres, if_pos hne]

theorem preLoop_lifecycle (s : AgentState) :
    (preLoop s).lifecycle = Lifecycle.running := by
  unfold preLoop
  have h := addTasks_frame
  cases hlast : s.lastConclusion <;> simp_all

theorem preLoop_replay (s : AgentState) (i : Nat)
    (h : s.lastConclusion = some i) :
    (preLoop s).concluded = s.concluded ++ [i] ∧
    (preLoop s).lastConclusion = none := by
  unfold preLoop
  have ha := addTasks_frame
  simp_all

theorem preLoop_no_replay (s : AgentState)
    (h : s.lastConclusion = none) :
    (preLoop s).concluded = s.concluded ∧
    (preLoop s).lastConclusion = none := by
  unfold preLoop
  have ha := addTasks_frame
  simp_all

theorem preLoop_workLog_of_nonempty (s : AgentState) (w : AgentWork)
    (rest : List AgentWork) (h : s.workLog = w :: rest) :
    (preLoop s).workLog = w :: rest := by
  unfold preLoop
  cases hlast : s.lastConclusion <;>
    simp_all [addTasks_of_nonempty, addTasksIfWorklogEmpty, h]

theorem preLoop_completedTasks (s : AgentState) :
    (preLoop s).completedTasks = s.completedTasks := by
  unfold preLoop
  have ha := addTasks_frame
  cases hlast : s.lastConclusion <;> simp_all

theorem loopIter_as_steps (w : AgentWork) (s : AgentState) :
    loopIter w s =
      addTasksIfWorklogEmpty (nextStep w (ceilingStep (counterStep w
        (concludeStep w
          { runWork w shouldStopPred s with
              workLog := (runWork w shouldStopPred s).workLog.tail })))) := rfl

theorem loopIter_completedTasks (w : AgentWork) (s : AgentState) :
    (loopIter w s).completedTasks =
      s.completedTasks + (if taskCompleted w.task then 1 else 0) := by
  rw [loopIter_as_steps, (addTasks_frame _).2.2.2.1, nextStep_eq]
  simp only [ceilingStep_eq, counterStep_eq]
  have hc := (concludeStep_frame w
    { runWork w shouldStopPred s with
        workLog := (runWork w shouldStopPred s).workLog.tail }).2.2.1
  have hr := (runWork_frame w shouldStopPred s).2.2.2.1
  simp_all

theorem loopIter_customMaxLoops (w : AgentWork) (s : AgentState) :
    (loopIter w s).customMaxLoops = s.customMaxLoops := by
  rw [loopIter_as_steps, (addTasks_frame _).2.2.2.2.2.2, nextStep_eq]
  simp only [ceilingStep_eq, counterStep_eq]
  have hc := (concludeStep_frame w
    { runWork w shouldStopPred s with
        workLog := (runWork w shouldStopPred s).workLog.tail }).2.2.2.2.2.2
  have hr := (runWork_frame w shouldStopPred s).2.2.2.2.2
  simp_all

theorem loopIter_lifecycle_of_ceiling (w : AgentWork) (s : AgentState)
    (hk : s.customMaxLoops * 2 ≤ (loopIter w s).completedTasks) :
    (loopIter w s).lifecycle = Lifecycle.stopped := by
  rw [loopIter_completedTasks] at hk
  rw [loopIter_as_steps, (addTasks_frame _).1, nextStep_eq]
  simp only [ceilingStep_eq, counterStep_eq]
  have hc := concludeStep_frame w
    { runWork w shouldStopPred s with
        workLog := (runWork w shouldStopPred s).workLog.tail }
  have hr := runWork_frame w shouldStopPred s
  simp_all

theorem loopIter_defer (w : AgentWork) (s : AgentState) (l : Lifecycle)
    (hlc : s.lifecycle = Lifecycle.running) (hscr : w.script = [])
    (hsig : w.signal = some l) (hl : l ≠ Lifecycle.running) :
    (loopIter w s).concluded = s.concluded ∧
    (loopIter w s).lastConclusion = some w.id ∧
    (loopIter w s).lifecycle ≠ Lifecycle.running := by
  have hstop : shouldStopPred s = false := by
    simp [shouldStopPred, hlc]
  have hrw := runWork_success w shouldStopPred s hscr hstop
  rw [loopIter_as_steps, hrw, hsig]
  simp only [applySignal]
  rw [concludeStep_of_not_running _ _ (by simpa using hl)]
  simp only [counterStep_eq, ceilingStep_eq, nextStep_eq]
  refine ⟨?_, ?_, ?_⟩
  · rw [(addTasks_frame _).2.1]
  · rw [(addTasks_frame _).2.2.1]
  · rw [(addTasks_frame _).1]
    simp only
    split
    all_goals try split
    all_goals simpa using hl

theorem endPhase_completedTasks (s : AgentState) :
    (endPhase s).completedTasks = s.completedTasks := by
  simp only [endPhase]
  rw [resolvePausing_eq]
  split
  all_goals try split
  all_goals simp [stopAgent]

theorem runLoop_completedTasks_mono (fuel : Nat) :
    ∀ s : AgentState, s.completedTasks ≤ (runLoop fuel s).completedTasks := by
  induction fuel with
  | zero =>
    intro s
    cases hlog : s.workLog with
    | nil =>
      simp only [runLoop, hlog]
      rw [endPhase_completedTasks]
    | cons w rest => simp only [runLoop, hlog]; exact le_refl _
  | succ f ih =>
    intro s
    cases hlog : s.workLog with
    | nil =>
      simp only [runLoop, hlog]
      rw [endPhase_completedTasks]
    | cons w rest =>
      simp only [runLoop, hlog]
      split
      · rw [resolvePausing_eq]
      · calc s.completedTasks
            = (resolvePausing s).completedTasks := by rw [resolvePausing_eq]
          _ ≤ (loopIter w (resolvePausing s)).completedTasks := by
              rw [loopIter_completedTasks]
              exact Nat.le_add_right _ _
          _ ≤ (runLoop f (loopIter w (resolvePausing s))).completedTasks := ih _

/-! ### Claims -/

/-- Claim C1, evaluated at the failing input: the source computes
`const shouldRetry = work.onError?.(e) || true;`, which is `true` even
when the item's `onError` hook returns `false`.  For `c1Work` (hook
returns `false`, `run()` raises the retryable `c1Err` once) the handler
verdict is `true`, the executor waits the flat 2000ms delay and retries:
two `run()` attempts happen, contradicting the claim that the failure
propagates with no further attempt. -/
theorem c1_hook_false_still_retries :
    (handleError c1Work c1Err (baseState Lifecycle.running)).2 = true ∧
    (runWork c1Work shouldStopPred (baseState Lifecycle.running)).attempts = 2 ∧
    (runWork c1Work shouldStopPred (baseState Lifecycle.running)).events
      = [AgentEvent.delayed RETRY_TIMEOUT] :=
  ⟨rfl, rfl, rfl⟩

/-- Claim C2: when the head item's `run()` succeeds but the lifecycle is
observed non-`running` right after it ran, its `conclude()` is not
invoked during that `run()` invocation (the concluded log is unchanged)
and the item is stored as the single deferred conclusion; the entry
bookkeeping of the next `run()` invocation (`preLoop`, which precedes
the re-seeding of the work log and the loop) replays it exactly once and
clears the slot. -/
theorem c2_deferred_conclusion_replay (s : AgentState) (w : AgentWork)
    (rest : List AgentWork) (l : Lifecycle) (fuel : Nat)
    (hlc : s.lifecycle = Lifecycle.running)
    (hlog : s.workLog = w :: rest)
    (hscr : w.script = [])
    (hsig : w.signal = some l)
    (hl : l ≠ Lifecycle.running) :
    (runLoop (fuel + 1) s).concluded = s.concluded ∧
    (runLoop (fuel + 1) s).lastConclusion = some w.id ∧
    (preLoop (runLoop (fuel + 1) s)).concluded = s.concluded ++ [w.id] ∧
    (preLoop (runLoop (fuel + 1) s)).lastConclusion = none := by
  have hres : resolvePausing s = s := by
    unfold resolvePausing
    rw [hlc]
    simp
  have hstep : runLoop (fuel + 1) s = runLoop fuel (loopIter w s) := by
    simp only [runLoop, hlog]
    rw [hres]
    simp [hlc]
  have hd := loopIter_defer w s l hlc hscr hsig hl
  have hrest := runLoop_not_running fuel (loopIter w s) hd.2.2
  have hconc : (runLoop (fuel + 1) s).concluded = s.concluded := by
    rw [hstep, hrest.1, hd.1]
  have hlast : (runLoop (fuel + 1) s).lastConclusion = some w.id := by
    rw [hstep, hrest.2.1, hd.2.1]
  have hp := preLoop_replay (runLoop (fuel + 1) s) w.id hlast
  refine ⟨hconc, hlast, ?_, hp.2⟩
  rw [hp.1, hconc]

/-- Witness for C2 at a concrete input: an external pause lands while the
single work item's `run()` is awaited. -/
theorem c2_deferred_conclusion_replay_witness :
    c2State.lifecycle = Lifecycle.running ∧
    c2State.workLog = c2Work :: [] ∧
    c2Work.script = [] ∧
    c2Work.signal = some Lifecycle.pausing ∧
    Lifecycle.pausing ≠ Lifecycle.running ∧
    ((runLoop 1 c2State).concluded = c2State.concluded ∧
      (runLoop 1 c2State).lastConclusion = some c2Work.id ∧
      (preLoop (runLoop 1 c2State)).concluded = c2State.concluded ++ [c2Work.id] ∧
      (preLoop (runLoop 1 c2State)).lastConclusion = none) :=
  ⟨rfl, rfl, rfl, rfl, by decide,
    c2_deferred_conclusion_replay c2State c2Work [] Lifecycle.pausing 0
      rfl rfl rfl rfl (by decide)⟩

/-- Claim C3: on an error the external predicate classifies
non-retryable, the handler stops the agent (`stopAgent`, lifecycle
`stopped`) and returns `false`, so the retry loop ends after the single
failed attempt: exactly one `run()` invocation, no backoff delay, and
the thinking indicator is cleared. -/
theorem c3_fatal_error_stops_without_retry (w : AgentWork) (e : Err)
    (rest : List Err) (s : AgentState)
    (hscr : w.script = e :: rest)
    (hfatal : isRetryableError e = false)
    (hs : s.lifecycle ≠ Lifecycle.stopped) :
    (handleError w e s).2 = false ∧
    (handleError w e s).1.lifecycle = Lifecycle.stopped ∧
    (runWork w shouldStopPred s).lifecycle = Lifecycle.stopped ∧
    (runWork w shouldStopPred s).attempts = s.attempts + 1 ∧
    (runWork w shouldStopPred s).events = s.events ∧
    (runWork w shouldStopPred s).isAgentThinking = false := by
  have hstop : shouldStopPred s = false := by
    simp [shouldStopPred, hs]
  refine ⟨?_, ?_, ?_, ?_, ?_, ?_⟩ <;>
    simp [handleError, hfatal, runWork, runAttempts, hscr, hstop, stopAgent,
      jsOrTrue]

/-- Witness for C3 at a concrete input: a work item always raising a
fatal-classified error, from a running agent. -/
theorem c3_fatal_error_stops_without_retry_witness :
    c3Work.script = c3Err :: [] ∧
    isRetryableError c3Err = false ∧
    (baseState Lifecycle.running).lifecycle ≠ Lifecycle.stopped ∧
    ((handleError c3Work c3Err (baseState Lifecycle.running)).2 = false ∧
      (handleError c3Work c3Err (baseState Lifecycle.running)).1.lifecycle
        = Lifecycle.stopped ∧
      (runWork c3Work shouldStopPred (baseState Lifecycle.running)).lifecycle
        = Lifecycle.stopped ∧
      (runWork c3Work shouldStopPred (baseState Lifecycle.running)).attempts
        = (baseState Lifecycle.running).attempts + 1 ∧
      (runWork c3Work shouldStopPred (baseState Lifecycle.running)).events
        = (baseState Lifecycle.running).events ∧
      (runWork c3Work shouldStopPred (baseState Lifecycle.running)).isAgentThinking
        = false) :=
  ⟨rfl, rfl, by decide,
    c3_fatal_error_stops_without_retry c3Work c3Err []
      (baseState Lifecycle.running) rfl rfl (by decide)⟩

/-- Claim C4: `pauseAgent()` on a running agent sets the lifecycle to
`pausing`; the next loop boundary resolves it to `paused` and the loop
returns without executing any further work item (no `run()` attempt, no
`conclude()`), the head item is still at the head, and it is still at
the head after the entry bookkeeping of the next `run()` invocation. -/
theorem c4_pause_resolved_at_loop_boundary (s : AgentState) (w : AgentWork)
    (rest : List AgentWork) (fuel : Nat)
    (hlc : s.lifecycle = Lifecycle.running)
    (hlog : s.workLog = w :: rest) :
    (pauseAgent s).lifecycle = Lifecycle.pausing ∧
    (runLoop (fuel + 1) (pauseAgent s)).lifecycle = Lifecycle.paused ∧
    (runLoop (fuel + 1) (pauseAgent s)).attempts = s.attempts ∧
    (runLoop (fuel + 1) (pauseAgent s)).concluded = s.concluded ∧
    (runLoop (fuel + 1) (pauseAgent s)).workLog = w :: rest ∧
    (preLoop (runLoop (fuel + 1) (pauseAgent s))).workLog = w :: rest := by
  have hplog : (pauseAgent s).workLog = w :: rest := by
    simp [pauseAgent, hlog]
  have h1 : runLoop (fuel + 1) (pauseAgent s) =
      { s with lifecycle := Lifecycle.paused } := by
    simp only [runLoop, hplog]
    rw [resolvePausing_eq]
    simp [pauseAgent]
  refine ⟨rfl, ?_, ?_, ?_, ?_, ?_⟩
  · rw [h1]
  · rw [h1]
  · rw [h1]
  · rw [h1]
    simpa using hlog
  · exact preLoop_workLog_of_nonempty _ w rest (by rw [h1]; simpa using hlog)

/-- Witness for C4 at a concrete input: a running agent with one pending
item is paused before `run()` reaches the loop boundary. -/
theorem c4_pause_resolved_at_loop_boundary_witness :
    c4State.lifecycle = Lifecycle.running ∧
    c4State.workLog = c4Work :: [] ∧
    ((pauseAgent c4State).lifecycle = Lifecycle.pausing ∧
      (runLoop 1 (pauseAgent c4State)).lifecycle = Lifecycle.paused ∧
      (runLoop 1 (pauseAgent c4State)).attempts = c4State.attempts ∧
      (runLoop 1 (pauseAgent c4State)).concluded = c4State.concluded ∧
      (runLoop 1 (pauseAgent c4State)).workLog = c4Work :: [] ∧
      (preLoop (runLoop 1 (pauseAgent c4State))).workLog = c4Work :: []) :=
  ⟨rfl, rfl,
    c4_pause_resolved_at_loop_boundary c4State c4Work [] 0 rfl rfl⟩

/-- Claim C5: one loop iteration increments the completed-task counter
exactly when the popped item's task is `completed` with a non-empty
result; whenever the counter has reached `customMaxLoops * 2` the
iteration leaves the lifecycle `stopped` and the remaining loop performs
no further work (it returns the state unchanged even though work items
may remain queued); and the counter never decreases across a whole
`run()`. -/
theorem c5_completed_counter_ceiling (w : AgentWork) (s : AgentState)
    (fuel : Nat) :
    (loopIter w s).completedTasks =
      s.completedTasks + (if taskCompleted w.task then 1 else 0) ∧
    (s.customMaxLoops * 2 ≤ (loopIter w s).completedTasks →
      (loopIter w s).lifecycle = Lifecycle.stopped ∧
      runLoop fuel (loopIter w s) = loopIter w s) ∧
    (∀ (f2 : Nat) (t : AgentState),
      t.completedTasks ≤ (run f2 t).completedTasks) := by
  refine ⟨loopIter_completedTasks w s, ?_, ?_⟩
  · intro hk
    have hlife := loopIter_lifecycle_of_ceiling w s hk
    exact ⟨hlife, runLoop_stopped fuel _ hlife⟩
  · intro f2 t
    unfold run
    calc t.completedTasks
        = (preLoop t).completedTasks := (preLoop_completedTasks t).symm
      _ ≤ _ := runLoop_completedTasks_mono f2 _

/-- Witness for C5 at a concrete input: one completed task already
counted, `customMaxLoops = 1`; the next completed item reaches the
ceiling `2` and the lifecycle is forced to `stopped`. -/
theorem c5_completed_counter_ceiling_witness :
    c5State.customMaxLoops * 2 ≤ (loopIter c5Work c5State).completedTasks ∧
    ((loopIter c5Work c5State).lifecycle = Lifecycle.stopped ∧
      runLoop 2 (loopIter c5Work c5State) = loopIter c5Work c5State) :=
  ⟨by decide,
    (c5_completed_counter_ceiling c5Work c5State 2).2.1 (by decide)⟩

/-- Claim C6: whenever the lifecycle is observed `stopped` at a loop
boundary (the only way it can be `stopped` before any item executes,
since the entry of `run()` unconditionally forces `running` first — the
second conjunct), the loop performs no work and returns the state
unchanged: no `run()` attempt, no `conclude()`, work log untouched. -/
theorem c6_stop_precedence :
    (∀ (fuel : Nat) (s : AgentState),
      s.lifecycle = Lifecycle.stopped → runLoop fuel s = s) ∧
    (∀ t : AgentState, (preLoop t).lifecycle = Lifecycle.running) :=
  ⟨fun fuel s h => runLoop_stopped fuel s h,
    fun t => preLoop_lifecycle t⟩

/-- Witness for C6 at a concrete input: a stopped agent with one queued
item, and the entry force to `running` from an idle agent. -/
theorem c6_stop_precedence_witness :
    c6State.lifecycle = Lifecycle.stopped ∧
    runLoop 3 c6State = c6State ∧
    (preLoop (baseState Lifecycle.idle)).lifecycle = Lifecycle.running :=
  ⟨rfl, c6_stop_precedence.1 3 c6State rfl,
    c6_stop_precedence.2 (baseState Lifecycle.idle)⟩

/-- Claim C7: when `chat(message)` is invoked on a stopped agent, the
chat item is executed (one `run()` attempt) and concluded, and the
lifecycle is restored to `stopped` afterwards; and a `chat` call never
touches the work log (final conjunct, for every starting state). -/
theorem c7_chat_restores_stopped (s : AgentState) (m : String)
    (hs : s.lifecycle = Lifecycle.stopped) :
    (chat m s).lifecycle = Lifecycle.stopped ∧
    (chat m s).attempts = s.attempts + 1 ∧
    (chat m s).concluded = s.concluded ++ [(chatWork m).id] ∧
    (∀ (t : AgentState) (m2 : String), (chat m2 t).workLog = t.workLog) := by
  refine ⟨?_, ?_, ?_, ?_⟩
  · simp [chat, hs, runWork, runAttempts, chatWork, AgentWork.script,
      AgentWork.signal, applySignal]
  · simp [chat, hs, runWork, runAttempts, chatWork, AgentWork.script,
      AgentWork.signal, applySignal]
  · simp [chat, hs, runWork, runAttempts, chatWork, AgentWork.script,
      AgentWork.signal, AgentWork.id, applySignal]
  · intro t m2
    simp only [chat, runWork, runAttempts, chatWork, AgentWork.script,
      AgentWork.signal, AgentWork.id, applySignal, pauseAgent]
    split_ifs <;> simp

/-- Witness for C7 at a concrete input: chat on a stopped agent. -/
theorem c7_chat_restores_stopped_witness :
    (baseState Lifecycle.stopped).lifecycle = Lifecycle.stopped ∧
    ((chat "hello" (baseState Lifecycle.stopped)).lifecycle
        = Lifecycle.stopped ∧
      (chat "hello" (baseState Lifecycle.stopped)).attempts
        = (baseState Lifecycle.stopped).attempts + 1 ∧
      (chat "hello" (baseState Lifecycle.stopped)).concluded
        = (baseState Lifecycle.stopped).concluded ++ [(chatWork "hello").id] ∧
      (∀ (t : AgentState) (m2 : String), (chat m2 t).workLog = t.workLog)) :=
  ⟨rfl, c7_chat_restores_stopped (baseState Lifecycle.stopped) "hello" rfl⟩

/-- Claim C8: a `chat(message)` call on a running agent pauses it and
leaves the lifecycle at `pausing` when it returns: it neither restores
`running` nor resolves `pausing` to `paused` itself. -/
theorem c8_chat_on_running_leaves_pausing (s : AgentState) (m : String)
    (hs : s.lifecycle = Lifecycle.running) :
    (chat m s).lifecycle = Lifecycle.pausing := by
  simp [chat, hs, pauseAgent, runWork, runAttempts, chatWork,
    AgentWork.script, AgentWork.signal, applySignal]

/-- Witness for C8 at a concrete input: chat on a running agent. -/
theorem c8_chat_on_running_leaves_pausing_witness :
    (baseState Lifecycle.running).lifecycle = Lifecycle.running ∧
    (chat "hello" (baseState Lifecycle.running)).lifecycle
      = Lifecycle.pausing :=
  ⟨rfl, c8_chat_on_running_leaves_pausing (baseState Lifecycle.running)
    "hello" rfl⟩

/-- Claim C9: a freshly constructed agent's work log is exactly the
single goal-start bootstrap item and its completed-task counter is zero,
so the first `run()` has a head item even when the run-model has no
current task. -/
theorem c9_initial_worklog_single_bootstrap (lf : Lifecycle)
    (task : Option AgentTask) (maxLoops : Nat) :
    (mkAgent lf task maxLoops).workLog = [startGoalWork] ∧
    (mkAgent lf task maxLoops).completedTasks = 0 ∧
    (mkAgent lf none maxLoops).workLog.length = 1 ∧
    (mkAgent lf none maxLoops).workLog ≠ [] := by
  refine ⟨rfl, rfl, rfl, ?_⟩
  simp [mkAgent]

/-- Claim C10: `createTaskMessages` returns exactly one message per
description, in input order, and for each description it calls
`messageService.startTask` and then `model.addTask` (followed by the
fixed short delay) before processing the next description. -/
theorem c10_createTaskMessages_order (tasks : List String)
    (s : AgentState) :
    (createTaskMessages tasks s).2 = tasks ∧
    (createTaskMessages tasks s).1.events
      = s.events ++ taskCreationTrace tasks := by
  induction tasks generalizing s with
  | nil => simp [createTaskMessages, taskCreationTrace]
  | cons v rest ih =>
    simp only [createTaskMessages, taskCreationTrace]
    refine ⟨?_, ?_⟩
    · simp [(ih _).1]
    · rw [(ih _).2]
      simp
